import Mathlib

/-!
Verification of the hydra-tracker frontend (src/src/types.ts: the type
declarations and the App component) against its natural-language
specification.  The TypeScript is shallowly embedded: each handler becomes
a pure Lean function from its inputs and the relevant environment
(results of the asynchronous store/OS calls, given as explicit flags) to
the list of observable effects it performs and the updated state.  The
React effect that owns the reminder timers is embedded as a small state
machine whose events are settings changes, timer firings and teardown.
-/

namespace HydraTracker

/-- A calendar day, standing in for the `date` string of the TypeScript
`WaterEntry` (format YYYY-MM-DD). -/
structure Date where
  year : Int
  month : Int
  day : Int
deriving DecidableEq

/-- Mirrors `interface WaterEntry` (types.ts lines 1-6); the timestamp is
kept abstract as a string. -/
structure WaterEntry where
  id : Int
  amount_ml : Int
  timestamp : String
  date : Date
deriving DecidableEq

/-- Mirrors `interface DailyStats` (types.ts lines 8-14). `percentage` is a
rational standing in for the TypeScript number. -/
structure DailyStats where
  date : Date
  total_ml : Int
  goal_ml : Int
  entries_count : Nat
  percentage : Rat
deriving DecidableEq

/-- Mirrors `interface MonthlyStats` (types.ts lines 16-25); the `month`
label is kept as the month number. -/
structure MonthlyStats where
  month : Int
  year : Int
  days : List DailyStats
  total_ml : Int
  average_ml : Rat
  days_goal_met : Nat
  current_streak : Nat
  best_streak : Nat
deriving DecidableEq

/-- Mirrors `interface Settings` (types.ts lines 27-34). -/
structure Settings where
  daily_goal_ml : Int
  reminder_interval_minutes : Int
  reminder_enabled : Bool
  sound_enabled : Bool
  start_with_system : Bool
  theme : String
deriving DecidableEq

/-- Mirrors `defaultSettings` (App, lines 106-113). -/
def defaultSettings : Settings :=
  { daily_goal_ml := 4000
    reminder_interval_minutes := 60
    reminder_enabled := true
    sound_enabled := true
    start_with_system := false
    theme := "dark" }

/-- Mirrors `Partial<Settings>` as it is used by `handleSaveSettings`:
a field present in the patch overrides the current value. -/
structure SettingsPatch where
  daily_goal_ml : Option Int := none
  reminder_interval_minutes : Option Int := none
  reminder_enabled : Option Bool := none
  sound_enabled : Option Bool := none
  start_with_system : Option Bool := none
  theme : Option String := none
deriving DecidableEq

/-- The spread `{ ...settings, ...newSettings }` of `handleSaveSettings`
(line 390). -/
def applyPatch (s : Settings) (p : SettingsPatch) : Settings :=
  { daily_goal_ml := p.daily_goal_ml.getD s.daily_goal_ml
    reminder_interval_minutes :=
      p.reminder_interval_minutes.getD s.reminder_interval_minutes
    reminder_enabled := p.reminder_enabled.getD s.reminder_enabled
    sound_enabled := p.sound_enabled.getD s.sound_enabled
    start_with_system := p.start_with_system.getD s.start_with_system
    theme := p.theme.getD s.theme }

/-- The observable effects the embedded handlers can perform: state-setter
calls, store invocations, OS integration calls and UI feedback.  `invoke`
results are supplied to the handlers as explicit flags, so an effect here
records that the corresponding call was made. -/
inductive Effect where
  | setSettingsMem (s : Settings)
  | setDocTheme (t : String)
  | enableAutostart
  | disableAutostart
  | consoleError (msg : String)
  | setToast (msg : String)
  | saveSettings (s : Settings)
  | loadDataCall
  | playSound (kind : String)
  | invokeAddWater (amount : Int)
  | getTodayStats
  | getTodayEntries
  | requestPermission
  | sendTestNote
  | sendReminderNote
  | showAchievement
  | setCustomAmountClear
deriving DecidableEq

/-- The theme block of `handleSaveSettings` (lines 393-395): the attribute
is set only when the patch carries a truthy theme (the empty string is
falsy). -/
def themeTrace (p : SettingsPatch) : List Effect :=
  match p.theme with
  | some t => if t = "" then [] else [Effect.setDocTheme t]
  | none => []

/-- The autostart block of `handleSaveSettings` (lines 397-411): when the
patch touches `start_with_system`, call the OS enable/disable operation; a
failure is logged and surfaced as a toast, and execution continues. -/
def autostartTrace (p : SettingsPatch) (autostartOk : Bool) : List Effect :=
  match p.start_with_system with
  | some b =>
      (if b then [Effect.enableAutostart] else [Effect.disableAutostart])
        ++ (if autostartOk then []
            else [Effect.consoleError "Failed to update autostart",
                  Effect.setToast "Failed to update autostart setting"])
  | none => []

/-- `handleSaveSettings` (App, lines 389-419).  Arguments: the current
in-memory settings, the currently persisted settings, the patch, and the
outcomes of the two fallible calls (`enable`/`disable` autostart and the
`save_settings` invoke).  Returns the effect trace, the new in-memory
settings, and the new persisted settings (unchanged when the save fails).
The `saveSettings` effect records the invocation itself; the trailing
`loadData()` call is recorded as the `loadDataCall` effect, its behaviour
being the separate `loadData` embedding. -/
def handleSaveSettings (cur persisted : Settings) (p : SettingsPatch)
    (autostartOk saveOk : Bool) : List Effect × Settings × Settings :=
  let updated := applyPatch cur p
  (Effect.setSettingsMem updated :: themeTrace p ++ autostartTrace p autostartOk
      ++ Effect.saveSettings updated ::
        (if saveOk then [Effect.loadDataCall]
         else [Effect.consoleError "Failed to save settings"]),
   updated,
   if saveOk then updated else persisted)

/-- The record store as seen by `loadData`: the persisted settings and the
results of the two read commands for the current day. -/
structure Store where
  settings : Settings
  todayStats : DailyStats
  todayEntries : List WaterEntry
deriving DecidableEq

/-- The in-memory React state that `loadData` writes: `stats`, `entries`,
`settings` and the applied document theme. -/
structure AppMem where
  stats : Option DailyStats
  entries : List WaterEntry
  settings : Settings
  docTheme : String
deriving DecidableEq

/-- Outcomes of the asynchronous calls made during one run of `loadData`:
whether each of the three store reads resolves, the result of
`isAutostartEnabled` (`none` if it throws), and whether the corrective
`save_settings` write resolves. -/
structure LoadEnv where
  statsOk : Bool
  entriesOk : Bool
  settingsOk : Bool
  autostartRes : Option Bool
  saveOk : Bool
deriving DecidableEq

/-- `loadData` (App, lines 179-208).  The three reads are awaited together
(`Promise.all`), so if any fails the outer catch runs and nothing is set.
On success the autostart reconciliation (lines 189-199) runs inside its own
try/catch: when the actual OS state differs from the persisted flag, the
settings object is mutated to the OS value and `save_settings` is invoked;
a failure of `isAutostartEnabled` is only logged.  `setSettings` and the
theme application then use the (possibly mutated) settings object. -/
def loadData (mem : AppMem) (store : Store) (env : LoadEnv) :
    AppMem × Store × List Effect :=
  if env.statsOk && env.entriesOk && env.settingsOk then
    let ss := store.settings
    match env.autostartRes with
    | some auto =>
        if ss.start_with_system = auto then
          ({ stats := some store.todayStats, entries := store.todayEntries,
             settings := ss, docTheme := ss.theme }, store, [])
        else
          let ss2 := { ss with start_with_system := auto }
          ({ stats := some store.todayStats, entries := store.todayEntries,
             settings := ss2, docTheme := ss2.theme },
           if env.saveOk then { store with settings := ss2 } else store,
           [Effect.saveSettings ss2])
    | none =>
        ({ stats := some store.todayStats, entries := store.todayEntries,
           settings := ss, docTheme := ss.theme }, store,
         [Effect.consoleError "Failed to check autostart status"])
  else (mem, store, [Effect.consoleError "Failed to load data"])

/-- `navigateMonth` (App, lines 434-449), written on the pair
(year, month); the temporary `newMonth` variable is inlined. -/
def navigateMonth (prev : Int × Int) (direction : Int) : Int × Int :=
  if 12 < prev.2 + direction then (prev.1 + 1, 1)
  else if prev.2 + direction < 1 then (prev.1 - 1, 12)
  else (prev.1, prev.2 + direction)

/-- The achievement condition of `handleAddWater` (line 352): the banner is
not already showing, the refreshed percentage reached 100, and the prior
stats existed with a percentage below 100. -/
def achievementFires (achievementShow : Bool) (prevStats : Option DailyStats)
    (updatedStats : DailyStats) : Bool :=
  !achievementShow && decide (100 ≤ updatedStats.percentage)
    && (match prevStats with
        | some s => decide (s.percentage < 100)
        | none => false)

/-- `handleAddWater` (App, lines 337-374).  Non-positive amounts are
rejected before any call; otherwise `add_water` is invoked, the stats are
refreshed, the achievement check runs (line 352), and `loadData`, the toast
and the input reset follow.  `addOk` is the outcome of the try block store
calls (a failure anywhere in the block reaches the same catch);
`updatedStats` is the refreshed stats value and `prevStats` the in-memory
`stats` before the call. -/
def handleAddWater (amount : Int) (achievementShow : Bool)
    (prevStats : Option DailyStats) (addOk : Bool)
    (updatedStats : DailyStats) : List Effect :=
  if amount ≤ 0 then [Effect.playSound "error"]
  else
    Effect.playSound "add" :: Effect.invokeAddWater amount ::
      (if addOk then
        [Effect.getTodayStats, Effect.getTodayEntries]
          ++ (if achievementFires achievementShow prevStats updatedStats
              then [Effect.showAchievement] else [])
          ++ [Effect.loadDataCall,
              Effect.setToast ("Added " ++ toString amount ++ "ml"),
              Effect.setCustomAmountClear]
       else [Effect.consoleError "Failed to add water",
             Effect.playSound "error"])

/-- Effects that mutate the record store or the tracked in-memory state
(stats, entries, settings): the store writes, the state setters for those
fields, and `loadData` (which refreshes all of them). -/
def mutatesTracked : Effect → Bool
  | Effect.setSettingsMem _ => true
  | Effect.saveSettings _ => true
  | Effect.invokeAddWater _ => true
  | Effect.loadDataCall => true
  | _ => false

/-- A live recurring timer: the id returned by `setInterval` and the
millisecond period it was created with. -/
structure TimerRec where
  id : Nat
  intervalMs : Int
deriving DecidableEq

/-- The timer-related state of the component: the `reminderInterval` ref
(App, line 175), the set of recurring timers that have been created and not
yet cleared, the pending one-shot test-notification timeouts (the anonymous
`setTimeout` of line 288), and a counter for fresh timer ids.  Ids start at
1 because the code tests the ref for truthiness. -/
structure SchedState where
  reminderInterval : Option Nat
  liveIntervals : List TimerRec
  pendingTest : List Nat
  nextId : Nat
deriving DecidableEq

/-- The initial timer state: no ref, no live timers, no pending one-shots. -/
def sched0 : SchedState :=
  { reminderInterval := none, liveIntervals := [], pendingTest := [], nextId := 1 }

/-- The `if (reminderInterval.current) { clearInterval(...); current = null }`
block (App, lines 250-253 and 278-281): clears the referenced timer and
nulls the ref. -/
def clearCurrent (st : SchedState) : SchedState :=
  match st.reminderInterval with
  | some i =>
      { st with liveIntervals := st.liveIntervals.filter (fun t => !(t.id == i))
                reminderInterval := none }
  | none => st

/-- The effect cleanup (App, lines 326-333): clears the referenced recurring
timer but does not null the ref (the code calls `clearInterval` only).  The
pending test-notification timeouts are untouched; the separate
`achievementTimeout` ref it also clears belongs to the achievement banner,
not to the scheduler, and is not modelled. -/
def cleanupReminder (st : SchedState) : SchedState :=
  match st.reminderInterval with
  | some i =>
      { st with liveIntervals := st.liveIntervals.filter (fun t => !(t.id == i)) }
  | none => st

/-- `setupReminder` (App, lines 248-322).  `permAlready` is the result of
`isPermissionGranted`; `permReqGranted` is the result of
`requestPermission` when it is made.  When reminders are disabled the
current timer is cleared and nothing else happens; when permission is
missing after the request, a toast is shown and the function returns
without touching the timers; otherwise the current timer is cleared, the
one-shot test notification is scheduled and a fresh recurring timer with
the configured interval is created, all synchronously (the block from line
277 to line 321 contains no await). -/
def setupReminder (s : Settings) (permAlready permReqGranted : Bool)
    (st : SchedState) : SchedState × List Effect :=
  if s.reminder_enabled = false then (clearCurrent st, [])
  else
    let reqTrace : List Effect :=
      if permAlready then [] else [Effect.requestPermission]
    let granted := permAlready || permReqGranted
    if granted = false then
      (st, reqTrace ++
        [Effect.setToast
          "Notification permission required for reminders! Check system settings."])
    else
      let st1 := clearCurrent st
      let intervalMs := s.reminder_interval_minutes * 60 * 1000
      let testId := st1.nextId
      let st2 := { st1 with pendingTest := st1.pendingTest ++ [testId]
                            nextId := st1.nextId + 1 }
      let intId := st2.nextId
      let st3 := { st2 with
                    liveIntervals := st2.liveIntervals ++ [⟨intId, intervalMs⟩]
                    reminderInterval := some intId
                    nextId := st2.nextId + 1 }
      (st3, reqTrace)

/-- The component state the reminder effect depends on: the current
settings and the timer state. -/
structure ReactState where
  settings : Settings
  sched : SchedState
deriving DecidableEq

/-- Events driving the reminder scheduler: a settings change (the React
effect re-runs cleanup-then-setup only when one of its dependencies
`reminder_enabled`, `reminder_interval_minutes` changed — line 334), the
firing of a pending one-shot test notification, a tick of a recurring
timer, and component teardown. -/
inductive AppEvent where
  | changeSettings (s : Settings) (permAlready permReqGranted : Bool)
  | testFire (i : Nat)
  | intervalFire (i : Nat)
  | teardown
deriving DecidableEq

/-- The dependency array of the reminder effect (App, line 334). -/
def depsOf (s : Settings) : Bool × Int :=
  (s.reminder_enabled, s.reminder_interval_minutes)

/-- One step of the component: dispatch an event against the current state,
returning the new state and the notification/permission effects emitted by
the step.  A cleared timeout or interval never fires. -/
def stepEvent (rs : ReactState) : AppEvent → ReactState × List Effect
  | AppEvent.changeSettings s pa pr =>
      if depsOf s = depsOf rs.settings then ({ rs with settings := s }, [])
      else
        let r := setupReminder s pa pr (cleanupReminder rs.sched)
        ({ settings := s, sched := r.1 }, r.2)
  | AppEvent.testFire i =>
      if rs.sched.pendingTest.contains i then
        ({ rs with sched :=
            { rs.sched with
                pendingTest := rs.sched.pendingTest.filter (fun j => !(j == i)) } },
         [Effect.sendTestNote])
      else (rs, [])
  | AppEvent.intervalFire i =>
      if rs.sched.liveIntervals.any (fun t => t.id == i) then
        (rs, [Effect.sendReminderNote])
      else (rs, [])
  | AppEvent.teardown => ({ rs with sched := cleanupReminder rs.sched }, [])

/-- Mounting the component: the effect runs once against the empty timer
state with the initial settings. -/
def initApp (s0 : Settings) (pa pr : Bool) : ReactState × List Effect :=
  let r := setupReminder s0 pa pr sched0
  ({ settings := s0, sched := r.1 }, r.2)

/-- Run a list of events from a state. -/
def runEvents (rs : ReactState) (evs : List AppEvent) : ReactState :=
  evs.foldl (fun r e => (stepEvent r e).1) rs

/-- Structural invariant of the timer state: either no recurring timer is
live, or exactly one is and the ref points at it. -/
def SchedInv (st : SchedState) : Prop :=
  st.liveIntervals = [] ∨
    ∃ t, st.liveIntervals = [t] ∧ st.reminderInterval = some t.id

/-- Full invariant: the timer structure is single, a disabled setting means
no live timer, and every live timer carries the configured interval. -/
def AppInv (rs : ReactState) : Prop :=
  SchedInv rs.sched
  ∧ (rs.settings.reminder_enabled = false → rs.sched.liveIntervals = [])
  ∧ ∀ t ∈ rs.sched.liveIntervals,
      t.intervalMs = rs.settings.reminder_interval_minutes * 60 * 1000

/-- Entries whose derived date equals the target date. -/
def entriesOnDay (entries : List WaterEntry) (d : Date) : List WaterEntry :=
  entries.filter (fun e => decide (e.date = d))

/-- Modelled from the spec: the DailyStats computation of the backend
`get_today_stats` / `get_monthly_stats` commands, which are implemented in
the Rust side of the application and are not under src/.  Per spec section
3, total_ml sums the entries of the day, and percentage is
total_ml / goal_ml * 100 (rational division; division by a zero goal
yields 0). -/
def dailyStatsFor (goal : Int) (entries : List WaterEntry) (d : Date) :
    DailyStats :=
  let es := entriesOnDay entries d
  let total := (es.map (fun e => e.amount_ml)).sum
  { date := d, total_ml := total, goal_ml := goal, entries_count := es.length
    percentage := (total : Rat) / (goal : Rat) * 100 }

/-- Modelled from the spec: the current-streak walk of section 4.1, on the
descending list of (day-of-month, goal-met) pairs; a day counts while it
meets the goal and is exactly one day before the previous counted day. -/
def currentStreakGo : Option Int → List (Int × Bool) → Nat
  | _, [] => 0
  | none, (d, c) :: rest =>
      if c then 1 + currentStreakGo (some (d - 1)) rest else 0
  | some expected, (d, c) :: rest =>
      if c && (d == expected) then 1 + currentStreakGo (some (d - 1)) rest
      else 0

/-- Modelled from the spec: current_streak over the ascending
(day, goal-met) sequence — walk from the most recent day with data. -/
def currentStreak (flags : List (Int × Bool)) : Nat :=
  currentStreakGo none flags.reverse

/-- Modelled from the spec: best-streak accumulator — longest run of
consecutive (no calendar gap) goal-met days anywhere in the sequence. -/
def bestStreakGo : List (Int × Bool) → Option Int → Nat → Nat → Nat
  | [], _, _, best => best
  | (d, c) :: rest, prev, cur, best =>
      let cur2 :=
        if c then
          match prev with
          | some p => if d == p + 1 then cur + 1 else 1
          | none => 1
        else 0
      bestStreakGo rest (some d) cur2 (max best cur2)

/-- Modelled from the spec: best_streak over the ascending (day, goal-met)
sequence. -/
def bestStreak (flags : List (Int × Bool)) : Nat :=
  bestStreakGo flags none 0 0

/-- Modelled from the spec: the day numbers of a month that have at least
one entry, in ascending order. -/
def monthDayNums (entries : List WaterEntry) (year month : Int) : List Int :=
  ((List.range 31).map (fun k => (k : Int) + 1)).filter
    (fun d => !(entriesOnDay entries ⟨year, month, d⟩).isEmpty)

/-- Modelled from the spec: the DailyStats sequence of a month, one per day
with data, in ascending date order. -/
def monthDays (entries : List WaterEntry) (goal : Int)
    (year month : Int) : List DailyStats :=
  (monthDayNums entries year month).map
    (fun d => dailyStatsFor goal entries ⟨year, month, d⟩)

/-- Modelled from the spec: the (day-of-month, goal-met) flags of a month,
in ascending date order. -/
def monthFlags (entries : List WaterEntry) (goal : Int)
    (year month : Int) : List (Int × Bool) :=
  (monthDays entries goal year month).map
    (fun ds => (ds.date.day, decide (ds.goal_ml ≤ ds.total_ml)))

/-- Modelled from the spec: the backend command `get_monthly_stats`
(implemented in the Rust side of the application, not under src/).  Per
spec section 4.1: days holds DailyStats for every day of the month with at
least one entry in ascending order, total_ml sums over those days,
average_ml is total_ml over the number of days with data guarded against
divide-by-zero, days_goal_met counts days meeting the goal, and the streaks
follow the section 4.1 walk. -/
def get_monthly_stats (entries : List WaterEntry) (goal : Int)
    (year month : Int) : MonthlyStats :=
  { month := month, year := year
    days := monthDays entries goal year month
    total_ml := ((monthDays entries goal year month).map
      (fun ds => ds.total_ml)).sum
    average_ml :=
      if (monthDays entries goal year month).length = 0 then 0
      else (((monthDays entries goal year month).map
          (fun ds => ds.total_ml)).sum : Rat)
        / ((monthDays entries goal year month).length : Rat)
    days_goal_met := ((monthDays entries goal year month).filter
      (fun ds => decide (ds.goal_ml ≤ ds.total_ml))).length
    current_streak := currentStreak (monthFlags entries goal year month)
    best_streak := bestStreak (monthFlags entries goal year month) }

/-- The permission toast message (App, line 270). -/
def permToast : String :=
  "Notification permission required for reminders! Check system settings."

/-- Fixture: the default settings with reminders turned off. -/
def sDisabled : Settings := { defaultSettings with reminder_enabled := false }

/-- Fixture: an empty day of stats. -/
def stats0 : DailyStats :=
  { date := ⟨2025, 10, 11⟩, total_ml := 0, goal_ml := 4000,
    entries_count := 0, percentage := 0 }

/-- Fixture: initial in-memory state. -/
def mem0 : AppMem :=
  { stats := none, entries := [], settings := defaultSettings, docTheme := "dark" }

/-- Fixture: a store holding the default settings and an empty day. -/
def store0 : Store :=
  { settings := defaultSettings, todayStats := stats0, todayEntries := [] }

/-- Fixture: a store whose persisted start_with_system flag is true. -/
def storeSync : Store :=
  { settings := { defaultSettings with start_with_system := true },
    todayStats := stats0, todayEntries := [] }

/-- Fixture: a load environment where every call succeeds and the OS
reports autostart disabled. -/
def envSync : LoadEnv :=
  { statsOk := true, entriesOk := true, settingsOk := true,
    autostartRes := some false, saveOk := true }

/-- Fixture: a settings patch turning start_with_system on. -/
def c1Patch : SettingsPatch := { start_with_system := some true }

/-- Fixture: a water entry logged in September 2025. -/
def entrySep : WaterEntry :=
  { id := 1, amount_ml := 500, timestamp := "2025-09-01T10:00:00", date := ⟨2025, 9, 1⟩ }

section SchedulerLemmas

/-- Clearing the current timer leaves no live recurring timer, given the
structural invariant. -/
theorem clearCurrent_live (st : SchedState) (h : SchedInv st) :
    (clearCurrent st).liveIntervals = [] := by
  unfold clearCurrent
  rcases h with h | ⟨t, hl, hs⟩
  · cases hr : st.reminderInterval <;> simp [h]
  · rw [hs]
    simp [hl]

/-- The effect cleanup leaves no live recurring timer, given the structural
invariant. -/
theorem cleanupReminder_live (st : SchedState) (h : SchedInv st) :
    (cleanupReminder st).liveIntervals = [] := by
  unfold cleanupReminder
  rcases h with h | ⟨t, hl, hs⟩
  · cases hr : st.reminderInterval <;> simp [h]
  · rw [hs]
    simp [hl]

/-- Behaviour of `setupReminder` on a state with no live timer (the shape
in which it is always invoked after a cleanup, and at mount). -/
theorem setupReminder_spec (s : Settings) (pa pr : Bool) (st : SchedState)
    (h : st.liveIntervals = []) :
    SchedInv (setupReminder s pa pr st).1
    ∧ (s.reminder_enabled = false →
        (setupReminder s pa pr st).1.liveIntervals = [])
    ∧ ∀ t ∈ (setupReminder s pa pr st).1.liveIntervals,
        t.intervalMs = s.reminder_interval_minutes * 60 * 1000 := by
  cases hEn : s.reminder_enabled <;> cases pa <;> cases pr <;>
    cases hr : st.reminderInterval <;>
    simp_all [setupReminder, SchedInv, clearCurrent]

/-- The invariant holds right after mount. -/
theorem initApp_inv (s0 : Settings) (pa pr : Bool) :
    AppInv (initApp s0 pa pr).1 := by
  have h := setupReminder_spec s0 pa pr sched0 rfl
  exact ⟨h.1, h.2.1, h.2.2⟩

/-- Every event preserves the invariant. -/
theorem stepEvent_inv (rs : ReactState) (h : AppInv rs) (e : AppEvent) :
    AppInv (stepEvent rs e).1 := by
  obtain ⟨h1, h2, h3⟩ := h
  cases e with
  | changeSettings s pa pr =>
      by_cases hd : depsOf s = depsOf rs.settings
      · have he : s.reminder_enabled = rs.settings.reminder_enabled :=
          congrArg Prod.fst hd
        have hi : s.reminder_interval_minutes
            = rs.settings.reminder_interval_minutes := congrArg Prod.snd hd
        simp only [stepEvent, hd, if_pos]
        refine ⟨h1, fun hf => h2 (he ▸ hf), fun t ht => ?_⟩
        rw [hi]
        exact h3 t ht
      · simp only [stepEvent, hd, if_neg, not_false_iff]
        have hnil : (cleanupReminder rs.sched).liveIntervals = [] :=
          cleanupReminder_live _ h1
        have hs := setupReminder_spec s pa pr (cleanupReminder rs.sched) hnil
        exact ⟨hs.1, hs.2.1, hs.2.2⟩
  | testFire i =>
      by_cases hc : rs.sched.pendingTest.contains i <;>
        simp only [stepEvent, hc, if_pos, if_neg, not_false_iff] <;>
        exact ⟨h1, h2, h3⟩
  | intervalFire i =>
      by_cases hc : rs.sched.liveIntervals.any (fun t => t.id == i) <;>
        simp only [stepEvent, hc, if_pos, if_neg, not_false_iff] <;>
        exact ⟨h1, h2, h3⟩
  | teardown =>
      have hnil := cleanupReminder_live rs.sched h1
      refine ⟨Or.inl hnil, fun _ => hnil, fun t ht => ?_⟩
      rw [show (stepEvent rs AppEvent.teardown).1.sched.liveIntervals
        = (cleanupReminder rs.sched).liveIntervals from rfl, hnil] at ht
      cases ht

/-- The invariant holds in every state reachable from a mounted component. -/
theorem runEvents_inv (rs : ReactState) (h : AppInv rs)
    (evs : List AppEvent) : AppInv (runEvents rs evs) := by
  induction evs generalizing rs with
  | nil => exact h
  | cons e rest ih => exact ih _ (stepEvent_inv rs h e)

end SchedulerLemmas

/-- C3: in every reachable state of the reminder scheduler at most one
recurring reminder timer is live, and every live timer carries the
currently configured interval — re-arming (including an interval change
while armed) cancels the previous recurring timer before creating the new
one, so no two recurring timers are ever live simultaneously. -/
theorem reminder_single_timer (s0 : Settings) (pa pr : Bool)
    (evs : List AppEvent) :
    (runEvents (initApp s0 pa pr).1 evs).sched.liveIntervals.length ≤ 1
    ∧ ∀ t ∈ (runEvents (initApp s0 pa pr).1 evs).sched.liveIntervals,
        t.intervalMs
          = (runEvents (initApp s0 pa pr).1 evs).settings.reminder_interval_minutes
              * 60 * 1000 := by
  have h := runEvents_inv _ (initApp_inv s0 pa pr) evs
  refine ⟨?_, h.2.2⟩
  rcases h.1 with h1 | ⟨t, h1, _⟩ <;> simp [h1]

/-- C4 counterexample: arm the scheduler with the default settings (the
one-shot test notification with id 1 becomes pending), then disable
reminders.  The pending one-shot is not cancelled by the disarm and still
fires its notification afterwards, contradicting the claim that disarming
cancels any pending one-shot confirmation notification. -/
theorem reminder_disarm_counterexample :
    sDisabled.reminder_enabled = false
    ∧ (stepEvent (initApp defaultSettings true true).1
        (AppEvent.changeSettings sDisabled true true)).1.sched.pendingTest = [1]
    ∧ (stepEvent (stepEvent (initApp defaultSettings true true).1
        (AppEvent.changeSettings sDisabled true true)).1
        (AppEvent.testFire 1)).2 = [Effect.sendTestNote] := by decide

/-- C4 (amended): whenever reminder_enabled becomes false or the component
is torn down, the recurring reminder timer is cancelled, so no recurring
reminder fires after the disarm; the pending one-shot confirmation
notification, however, is not cancelled and may still fire afterwards. -/
theorem reminder_disarm_clears_recurring (s0 : Settings) (pa pr : Bool)
    (evs : List AppEvent) :
    ((runEvents (initApp s0 pa pr).1 evs).settings.reminder_enabled = false →
        (runEvents (initApp s0 pa pr).1 evs).sched.liveIntervals = [])
    ∧ (stepEvent (runEvents (initApp s0 pa pr).1 evs)
        AppEvent.teardown).1.sched.liveIntervals = []
    ∧ ∀ i, (runEvents (initApp s0 pa pr).1 evs).sched.liveIntervals = [] →
        (stepEvent (runEvents (initApp s0 pa pr).1 evs)
          (AppEvent.intervalFire i)).2 = [] := by
  have h := runEvents_inv _ (initApp_inv s0 pa pr) evs
  refine ⟨h.2.1, cleanupReminder_live _ h.1, ?_⟩
  intro i hl
  simp [stepEvent, hl]

/-- Witness for `reminder_disarm_clears_recurring`: mounting with reminders
disabled leaves no live recurring timer. -/
theorem reminder_disarm_clears_recurring_witness :
    (runEvents (initApp sDisabled true true).1 []).sched.liveIntervals = [] :=
  (reminder_disarm_clears_recurring sDisabled true true []).1 rfl

/-- C5: with reminders enabled, the scheduler arms only when permission is
granted; when permission is not already granted it is requested exactly
once per arming attempt; when the request is denied the scheduler state is
left untouched (no timer is created) and the permission toast is shown
exactly once; and no event other than a settings change can issue a
permission request, so there is no automatic retry. -/
theorem reminder_permission_flow (s : Settings) (pa pr : Bool)
    (st : SchedState) (hen : s.reminder_enabled = true) :
    (pa = true →
      (setupReminder s pa pr st).2.count Effect.requestPermission = 0)
    ∧ (pa = false →
      (setupReminder s pa pr st).2.count Effect.requestPermission = 1)
    ∧ ((pa || pr) = false →
        (setupReminder s pa pr st).1 = st
        ∧ (setupReminder s pa pr st).2.count (Effect.setToast permToast) = 1)
    ∧ (∀ rs : ReactState, ∀ i : Nat,
        Effect.requestPermission ∉ (stepEvent rs (AppEvent.testFire i)).2
        ∧ Effect.requestPermission ∉ (stepEvent rs (AppEvent.intervalFire i)).2
        ∧ (stepEvent rs AppEvent.teardown).2 = []) := by
  refine ⟨?_, ?_, ?_, ?_⟩
  · intro hpa
    subst hpa
    simp [setupReminder, hen]
  · intro hpa
    subst hpa
    cases pr <;> simp [setupReminder, hen, permToast]
  · intro hg
    have hpa : pa = false := by cases pa <;> simp_all
    have hpr : pr = false := by cases pa <;> cases pr <;> simp_all
    subst hpa; subst hpr
    constructor
    · simp [setupReminder, hen]
    · simp [setupReminder, hen, permToast]
  · intro rs i
    refine ⟨?_, ?_, ?_⟩ <;> simp only [stepEvent] <;> split <;> simp

/-- Witness for `reminder_permission_flow`: the default settings have
reminders enabled, and a denied request leaves the empty scheduler state
untouched with the toast shown once. -/
theorem reminder_permission_flow_witness :
    defaultSettings.reminder_enabled = true
    ∧ (setupReminder defaultSettings false false sched0).1 = sched0
    ∧ (setupReminder defaultSettings false false sched0).2.count
        (Effect.setToast permToast) = 1 := by
  have h := reminder_permission_flow defaultSettings false false sched0 rfl
  exact ⟨rfl, (h.2.2.1 rfl).1, (h.2.2.1 rfl).2⟩

/-- C10: a settings change that leaves reminder_enabled and
reminder_interval_minutes alone (that is, a patch touching only
daily_goal_ml, sound_enabled, theme or start_with_system) does not disarm,
re-arm or restart the reminder scheduler: the timer state is unchanged. -/
theorem settings_change_frame (rs : ReactState) (p : SettingsPatch)
    (pa pr : Bool) (h1 : p.reminder_enabled = none)
    (h2 : p.reminder_interval_minutes = none) :
    (stepEvent rs
        (AppEvent.changeSettings (applyPatch rs.settings p) pa pr)).1.sched
      = rs.sched := by
  have hd : depsOf (applyPatch rs.settings p) = depsOf rs.settings := by
    simp [depsOf, applyPatch, h1, h2]
  simp [stepEvent, hd]

/-- Witness for `settings_change_frame`: a pure theme change leaves the
empty scheduler state untouched. -/
theorem settings_change_frame_witness :
    (stepEvent ⟨defaultSettings, sched0⟩
        (AppEvent.changeSettings
          (applyPatch defaultSettings { theme := some "light" }) true true)).1.sched
      = sched0 :=
  settings_change_frame ⟨defaultSettings, sched0⟩ { theme := some "light" }
    true true rfl rfl

/-- C1 counterexample: starting from the default settings (start_with_system
false), toggling start_with_system on while the OS autostart call fails and
the save succeeds still invokes save_settings with the new value and leaves
the persisted start_with_system at true — refuting the claim that the new
value is persisted only if the OS call succeeds.  The error toast is shown,
but persistence proceeds regardless. -/
theorem autostart_save_counterexample :
    defaultSettings.start_with_system = false
    ∧ (handleSaveSettings defaultSettings defaultSettings c1Patch
        false true).2.2.start_with_system = true
    ∧ (handleSaveSettings defaultSettings defaultSettings c1Patch
        false true).1.count
          (Effect.saveSettings (applyPatch defaultSettings c1Patch)) = 1
    ∧ Effect.setToast "Failed to update autostart setting"
        ∈ (handleSaveSettings defaultSettings defaultSettings c1Patch
            false true).1 := by decide

/-- C1 (amended): on a user-initiated change of start_with_system, the OS
enable/disable operation is called before save_settings; if the OS call
fails an error is surfaced to the caller (toast); but save_settings is then
invoked with the new value unconditionally, so when the save succeeds the
persisted settings change to the new value even though the OS call failed
(a subsequent load reconciles the flag back to the actual OS state). -/
theorem autostart_save_amended (cur persisted : Settings) (p : SettingsPatch)
    (autostartOk saveOk : Bool) (b : Bool)
    (hb : p.start_with_system = some b) :
    (∃ l1 l2,
        (handleSaveSettings cur persisted p autostartOk saveOk).1
          = l1 ++ Effect.saveSettings (applyPatch cur p) :: l2
        ∧ (if b then Effect.enableAutostart else Effect.disableAutostart) ∈ l1)
    ∧ (autostartOk = false →
        Effect.setToast "Failed to update autostart setting"
          ∈ (handleSaveSettings cur persisted p autostartOk saveOk).1)
    ∧ (handleSaveSettings cur persisted p autostartOk saveOk).2.2
        = (if saveOk then applyPatch cur p else persisted) := by
  refine ⟨?_, ?_, rfl⟩
  · refine ⟨Effect.setSettingsMem (applyPatch cur p) ::
      (themeTrace p ++ autostartTrace p autostartOk),
      (if saveOk then [Effect.loadDataCall]
       else [Effect.consoleError "Failed to save settings"]), ?_, ?_⟩
    · simp [handleSaveSettings]
    · cases b <;> simp [autostartTrace, hb]
  · intro hFail
    subst hFail
    simp only [handleSaveSettings, autostartTrace, hb]
    cases b <;> simp

/-- Witness for `autostart_save_amended`: toggling start_with_system on
with a failing OS call and a succeeding save shows the error toast and
persists the new value. -/
theorem autostart_save_amended_witness :
    c1Patch.start_with_system = some true
    ∧ Effect.setToast "Failed to update autostart setting"
        ∈ (handleSaveSettings defaultSettings defaultSettings c1Patch
            false true).1
    ∧ (handleSaveSettings defaultSettings defaultSettings c1Patch
        false true).2.2 = applyPatch defaultSettings c1Patch := by
  have h := autostart_save_amended defaultSettings defaultSettings c1Patch
    false true true rfl
  exact ⟨rfl, h.2.1 rfl, h.2.2⟩

/-- C2: on load, after the three reads succeed and `isAutostartEnabled`
reports the actual OS state: nothing is written when it matches the
persisted flag; when it differs the persisted value is overwritten to the
OS value and immediately persisted; the reconciliation never calls the OS
enable/disable operations; and in particular a persisted true flag with OS
autostart disabled ends with both the persisted and in-memory flags false. -/
theorem loadData_autostart_sync (mem : AppMem) (store : Store) (env : LoadEnv)
    (a : Bool) (h1 : env.statsOk = true) (h2 : env.entriesOk = true)
    (h3 : env.settingsOk = true) (h4 : env.autostartRes = some a)
    (h5 : env.saveOk = true) :
    (store.settings.start_with_system = a →
        (loadData mem store env).2.1 = store
        ∧ ∀ s, Effect.saveSettings s ∉ (loadData mem store env).2.2)
    ∧ (store.settings.start_with_system ≠ a →
        (loadData mem store env).2.1.settings
            = { store.settings with start_with_system := a }
        ∧ Effect.saveSettings { store.settings with start_with_system := a }
            ∈ (loadData mem store env).2.2)
    ∧ Effect.enableAutostart ∉ (loadData mem store env).2.2
    ∧ Effect.disableAutostart ∉ (loadData mem store env).2.2
    ∧ (store.settings.start_with_system = true → a = false →
        (loadData mem store env).2.1.settings.start_with_system = false
        ∧ (loadData mem store env).1.settings.start_with_system = false) := by
  by_cases hsw : store.settings.start_with_system = a
  · simp [loadData, h1, h2, h3, h4, h5, hsw]
  · simp [loadData, h1, h2, h3, h4, h5, hsw]

/-- Witness for `loadData_autostart_sync`: persisted start_with_system true,
OS autostart disabled — after reconciliation both flags are false. -/
theorem loadData_autostart_sync_witness :
    (loadData mem0 storeSync envSync).2.1.settings.start_with_system = false
    ∧ (loadData mem0 storeSync envSync).1.settings.start_with_system = false :=
  (loadData_autostart_sync mem0 storeSync envSync false rfl rfl rfl rfl
    rfl).2.2.2.2 rfl rfl

/-- C7: when any of the three store reads of `loadData` fails, the whole
load fails (the outer catch runs), the prior in-memory state — stats,
entries, settings and the applied theme — is left unchanged, the store is
untouched, and the failure is only logged (the embedding is a total
function, matching the absence of a crash). -/
theorem loadData_read_failure (mem : AppMem) (store : Store) (env : LoadEnv)
    (h : env.statsOk = false ∨ env.entriesOk = false
        ∨ env.settingsOk = false) :
    loadData mem store env
      = (mem, store, [Effect.consoleError "Failed to load data"]) := by
  have hc : (env.statsOk && env.entriesOk && env.settingsOk) = false := by
    rcases h with h | h | h <;> simp [h]
  simp [loadData, hc]

/-- Witness for `loadData_read_failure`: a failing stats read leaves the
in-memory state and store unchanged. -/
theorem loadData_read_failure_witness :
    loadData mem0 store0
        { statsOk := false, entriesOk := true, settingsOk := true,
          autostartRes := some false, saveOk := true }
      = (mem0, store0, [Effect.consoleError "Failed to load data"]) :=
  loadData_read_failure mem0 store0 _ (Or.inl rfl)

/-- C6: a requested amount with amount_ml ≤ 0 is rejected before anything
happens — the trace is just the error sound, which mutates neither the
store nor the tracked state (stats, entries, settings); and every
`add_water` invocation appearing in any trace carries a positive amount. -/
theorem addWater_rejects_nonpositive (amount : Int) (ach : Bool)
    (prev : Option DailyStats) (addOk : Bool) (upd : DailyStats) :
    (amount ≤ 0 →
      handleAddWater amount ach prev addOk upd = [Effect.playSound "error"]
      ∧ ∀ e ∈ handleAddWater amount ach prev addOk upd,
          mutatesTracked e = false)
    ∧ ∀ a : Int,
        Effect.invokeAddWater a ∈ handleAddWater amount ach prev addOk upd →
          0 < a := by
  constructor
  · intro hle
    have hEq : handleAddWater amount ach prev addOk upd
        = [Effect.playSound "error"] := by
      simp [handleAddWater, hle]
    refine ⟨hEq, ?_⟩
    rw [hEq]
    intro e he
    simp at he
    subst he
    rfl
  · intro a ha
    by_cases hle : amount ≤ 0
    · simp [handleAddWater, hle] at ha
    · cases addOk <;> cases hC : achievementFires ach prev upd <;>
        simp [handleAddWater, hle, hC] at ha <;> omega

/-- Witness for `addWater_rejects_nonpositive`: the zero amount produces
only the error sound. -/
theorem addWater_rejects_nonpositive_witness :
    (0 : Int) ≤ 0
    ∧ handleAddWater 0 false none true stats0 = [Effect.playSound "error"] :=
  ⟨le_refl 0,
    ((addWater_rejects_nonpositive 0 false none true stats0).1 (le_refl 0)).1⟩

/-- C8: for a month containing no entries, `get_monthly_stats` (modelled
from the spec, as the command is implemented in the Rust backend outside
src/) returns an empty days sequence, zero total, zero average (the
division by the number of days with data is guarded), and zero streaks. -/
theorem get_monthly_stats_empty (entries : List WaterEntry) (goal : Int)
    (y m : Int)
    (h : ∀ e ∈ entries, ¬(e.date.year = y ∧ e.date.month = m)) :
    get_monthly_stats entries goal y m
      = { month := m, year := y, days := [], total_ml := 0, average_ml := 0,
          days_goal_met := 0, current_streak := 0, best_streak := 0 } := by
  have hEmpty : ∀ d : Int, entriesOnDay entries ⟨y, m, d⟩ = [] := by
    intro d
    refine List.filter_eq_nil_iff.mpr ?_
    intro e he
    simp only [decide_eq_true_eq]
    intro hEq
    exact h e he ⟨by rw [hEq], by rw [hEq]⟩
  have hNums : monthDayNums entries y m = [] := by
    refine List.filter_eq_nil_iff.mpr ?_
    intro d _
    simp [hEmpty d]
  have hDays : monthDays entries goal y m = [] := by
    simp [monthDays, hNums]
  have hFlags : monthFlags entries goal y m = [] := by
    simp [monthFlags, hDays]
  simp [get_monthly_stats, hDays, hFlags, currentStreak, bestStreak,
    currentStreakGo, bestStreakGo]

/-- Witness for `get_monthly_stats_empty`: one entry logged in September
2025, queried for October 2025. -/
theorem get_monthly_stats_empty_witness :
    (∀ e ∈ [entrySep], ¬(e.date.year = 2025 ∧ e.date.month = 10))
    ∧ get_monthly_stats [entrySep] 4000 2025 10
      = { month := 10, year := 2025, days := [], total_ml := 0,
          average_ml := 0, days_goal_met := 0, current_streak := 0,
          best_streak := 0 } :=
  ⟨by decide, get_monthly_stats_empty [entrySep] 4000 2025 10 (by decide)⟩

/-- C9: for a selected (year, month) with month in 1..12 and a direction of
plus or minus one, `navigateMonth` stays in 1..12, wraps December forward to
January of the next year and January backward to December of the previous
year, otherwise moves only the month; and navigating forward then backward
restores the original pair. -/
theorem navigateMonth_wraps (y m d : Int) (h1 : 1 ≤ m) (h2 : m ≤ 12)
    (hd : d = 1 ∨ d = -1) :
    (1 ≤ (navigateMonth (y, m) d).2 ∧ (navigateMonth (y, m) d).2 ≤ 12)
    ∧ (m = 12 → d = 1 → navigateMonth (y, m) d = (y + 1, 1))
    ∧ (m = 1 → d = -1 → navigateMonth (y, m) d = (y - 1, 12))
    ∧ (1 ≤ m + d → m + d ≤ 12 → navigateMonth (y, m) d = (y, m + d))
    ∧ navigateMonth (navigateMonth (y, m) 1) (-1) = (y, m) := by
  rcases hd with rfl | rfl <;>
    simp only [navigateMonth, Prod.mk.injEq] <;>
    split_ifs <;> simp_all <;> omega

/-- Witness for `navigateMonth_wraps` at year 2025, month 12, direction 1. -/
theorem navigateMonth_wraps_witness :
    (1 : Int) ≤ 12 ∧ (12 : Int) ≤ 12 ∧ ((1 : Int) = 1 ∨ (1 : Int) = -1)
    ∧ navigateMonth (2025, 12) 1 = (2026, 1) := by
  refine ⟨by norm_num, by norm_num, Or.inl rfl, ?_⟩
  exact (navigateMonth_wraps 2025 12 1 (by norm_num) (by norm_num)
    (Or.inl rfl)).2.1 rfl rfl

end HydraTracker
